import Mathlib

/-!
Verification of the `ogla-frontend` admin Activities slice.

Shallow embedding of three source files:
- `src/admin/pages/Activities.js` (pagination window, filter handler,
  activities fetch normalization, export handler, log-purge handler),
- `src/utils/dateUtils.js` (the five DateFormatter functions),
- `src/utils/urlUtils.js` (`getBaseUrl`).

JavaScript `Number` values appearing in comparisons and arithmetic are
modelled as `Int` (all values occurring here are integral); absent or
`null`/`undefined` fields are modelled as `Option`; string template
literals are modelled with `toString` and `++`.
-/

/-! ### Pagination window (Activities.js lines 520-554)

The page-number control maps over `Array.from({length: pages}, (_, i) => i+1)`
and for each page number returns a button element, an ellipsis span, or
`null`.  React renders the non-`null` results in order, which we model as a
`filterMap` over the list `[1, ..., pages]`. -/

/-- One rendered item of the page-number control: a numbered page button or
an ellipsis placeholder (keyed, in the source, by the page number it
replaces). -/
inductive PageItem where
  | button (k : Int)
  | ellipsis (k : Int)
deriving DecidableEq, Repr

/-- The body of the `.map` callback at Activities.js lines 520-554: given the
current page `p` (`pagination.page`), total pages `T` (`pagination.pages`)
and the iterated page number `k`, return the rendered item, or `none` for
the source's `return null`. -/
def renderItem (p T k : Int) : Option PageItem :=
  if k = 1 ∨ k = T ∨ (p - 2 ≤ k ∧ k ≤ p + 2) then
    some (PageItem.button k)
  else if k = p - 3 ∨ k = p + 3 then
    some (PageItem.ellipsis k)
  else
    none

/-- The list of items the page-number control renders, in order: the map
over `[1, ..., T]` with `null` results dropped. -/
def paginationItems (p T : Int) : List PageItem :=
  ((List.range T.toNat).map (fun i => Int.ofNat (i + 1))).filterMap (renderItem p T)

/-! ### DateFormatter (dateUtils.js) -/

/-- The observable accessors of a successfully parsed JavaScript `Date`:
local-time components, epoch milliseconds (`getTime()`), and the
`toISOString()` rendering. -/
structure DateRec where
  day : Nat
  month0 : Nat
  year : Int
  hours : Nat
  minutes : Nat
  seconds : Nat
  ms : Int
  isoString : String
deriving DecidableEq, Repr

/-- A date-like input to the formatters: `absent` is any falsy input
(missing, `null`, `undefined`, empty string), `unparsable` is a truthy
input for which `new Date(input)` is an Invalid Date (`getTime()` is NaN),
and `valid d` is a truthy input parsing to the date `d`. -/
inductive DateInput where
  | absent
  | unparsable
  | valid (d : DateRec)
deriving DecidableEq, Repr

/-- The source's `!dateInput` guard. -/
def isFalsy : DateInput → Bool
  | DateInput.absent => true
  | DateInput.unparsable => false
  | DateInput.valid _ => false

/-- `new Date(dateInput)` followed by the `isNaN(date.getTime())` check:
`none` when the date is invalid. -/
def parseDate : DateInput → Option DateRec
  | DateInput.absent => none
  | DateInput.unparsable => none
  | DateInput.valid d => some d

/-- JavaScript `String(n).padStart(2, '0')`. -/
def padStart2 (s : String) : String :=
  if 2 ≤ s.length then s else if s.length = 1 then "0" ++ s else "00"

/-- `formatDate` (dateUtils.js lines 10-21): `dd/mm/yyyy`. -/
def formatDate (dateInput : DateInput) : String :=
  if isFalsy dateInput then "" else
  match parseDate dateInput with
  | none => ""
  | some date =>
    let day := padStart2 (toString date.day)
    let month := padStart2 (toString (date.month0 + 1))
    let year := toString date.year
    day ++ "/" ++ month ++ "/" ++ year

/-- `formatDateTime` (dateUtils.js lines 28-41): `dd/mm/yyyy hh:mm`. -/
def formatDateTime (dateInput : DateInput) : String :=
  if isFalsy dateInput then "" else
  match parseDate dateInput with
  | none => ""
  | some date =>
    let day := padStart2 (toString date.day)
    let month := padStart2 (toString (date.month0 + 1))
    let year := toString date.year
    let hours := padStart2 (toString date.hours)
    let minutes := padStart2 (toString date.minutes)
    day ++ "/" ++ month ++ "/" ++ year ++ " " ++ hours ++ ":" ++ minutes

/-- `formatDateTimeFull` (dateUtils.js lines 48-62): `dd/mm/yyyy hh:mm:ss`. -/
def formatDateTimeFull (dateInput : DateInput) : String :=
  if isFalsy dateInput then "" else
  match parseDate dateInput with
  | none => ""
  | some date =>
    let day := padStart2 (toString date.day)
    let month := padStart2 (toString (date.month0 + 1))
    let year := toString date.year
    let hours := padStart2 (toString date.hours)
    let minutes := padStart2 (toString date.minutes)
    let seconds := padStart2 (toString date.seconds)
    day ++ "/" ++ month ++ "/" ++ year ++ " " ++ hours ++ ":" ++ minutes ++ ":" ++ seconds

/-- `formatRelativeTime` (dateUtils.js lines 69-96).  `now` is the epoch
milliseconds of `new Date()` at the call; `Math.floor` on the (possibly
negative) quotient is `Int.fdiv`. -/
def formatRelativeTime (now : Int) (dateInput : DateInput) : String :=
  if isFalsy dateInput then "" else
  match parseDate dateInput with
  | none => ""
  | some date =>
    let diffInSeconds := (now - date.ms).fdiv 1000
    if diffInSeconds < 60 then
      "Just now"
    else if diffInSeconds < 3600 then
      let minutes := diffInSeconds.fdiv 60
      toString minutes ++ " minute" ++ (if minutes ≠ 1 then "s" else "") ++ " ago"
    else if diffInSeconds < 86400 then
      let hours := diffInSeconds.fdiv 3600
      toString hours ++ " hour" ++ (if hours ≠ 1 then "s" else "") ++ " ago"
    else if diffInSeconds < 2592000 then
      let days := diffInSeconds.fdiv 86400
      toString days ++ " day" ++ (if days ≠ 1 then "s" else "") ++ " ago"
    else if diffInSeconds < 31536000 then
      let months := diffInSeconds.fdiv 2592000
      toString months ++ " month" ++ (if months ≠ 1 then "s" else "") ++ " ago"
    else
      let years := diffInSeconds.fdiv 31536000
      toString years ++ " year" ++ (if years ≠ 1 then "s" else "") ++ " ago"

/-- `formatISO` (dateUtils.js lines 103-110): guarded pass-through to
`date.toISOString()`. -/
def formatISO (dateInput : DateInput) : String :=
  if isFalsy dateInput then "" else
  match parseDate dateInput with
  | none => ""
  | some date => date.isoString

/-! ### UrlResolver (urlUtils.js) -/

/-- The environment configuration read by `getBaseUrl`: `NODE_ENV` and the
optional `REACT_APP_BASE_URL` variable (`none` when unset; `some ""` when
set to the empty string, which JavaScript `||` treats as falsy). -/
structure Env where
  nodeEnv : String
  reactAppBaseUrl : Option String
deriving DecidableEq, Repr

/-- `getBaseUrl` (urlUtils.js lines 2-9). -/
def getBaseUrl (env : Env) : String :=
  if env.nodeEnv = "development" then
    "http://localhost:3000"
  else
    match env.reactAppBaseUrl with
    | some u => if u = "" then "https://oglasheabutter.com" else u
    | none => "https://oglasheabutter.com"

/-! ### ActivityDashboard state (Activities.js lines 20-37) -/

/-- One audit-log entry as consumed by the page (data model of the spec,
fields as read by the render at Activities.js lines 425-475). -/
structure Activity where
  id : Int
  action : String
  entityType : String
  entityId : Option Int
  details : Option String
  user : String
  createdAt : DateInput
  ipAddress : Option String
deriving DecidableEq, Repr

/-- The `filters` state (Activities.js lines 24-29).  Field values arrive
from `<select>` elements as strings; the initial `days: 30` is rendered
into query strings and filenames the same way, so all fields are modelled
as strings. -/
structure Filters where
  entityType : String
  action : String
  userId : String
  days : String
deriving DecidableEq, Repr

/-- The key argument of `handleFilterChange`. -/
inductive FilterKey where
  | entityType
  | action
  | userId
  | days
deriving DecidableEq, Repr

/-- Computed-key object spread `{ ...prev, [key]: value }` on a `Filters`
object. -/
def setFilterField (f : Filters) (key : FilterKey) (value : String) : Filters :=
  match key with
  | FilterKey.entityType => { f with entityType := value }
  | FilterKey.action => { f with action := value }
  | FilterKey.userId => { f with userId := value }
  | FilterKey.days => { f with days := value }

/-- The `pagination` state (Activities.js lines 30-35). -/
structure Pagination where
  page : Int
  limit : Int
  total : Int
  pages : Int
deriving DecidableEq, Repr

/-- The `stats` state: the aggregate object returned by
`GET /activities/stats` (initially `{}`, modelled as empty lists). -/
structure Stats where
  dailyStats : List (String × Int)
  topUsers : List String
  activityStats : List (String × Int)
deriving DecidableEq, Repr

/-- The `logPurgeStatus` state: body of `GET /log-purge/status` `.data`. -/
structure LogPurgeStatus where
  total : Int
  ageRanges : List (String × Int)
  oldestRecord : Option DateRec
  newestRecord : Option DateRec
deriving DecidableEq, Repr

/-- All page-level state owned by the `Activities` component
(Activities.js lines 21-37). -/
structure ActivitiesState where
  activities : List Activity
  stats : Stats
  loading : Bool
  filters : Filters
  pagination : Pagination
  logPurgeStatus : Option LogPurgeStatus
  purging : Bool
deriving DecidableEq, Repr

/-- Observable side effects a handler issues besides state updates:
re-issued passive fetches, `alert`/`console.error` messages, and the
synthetic-anchor CSV download. -/
inductive Effect where
  | fetchActivities
  | fetchStats
  | fetchLogPurgeStatus
  | alertMsg (msg : String)
  | logError (msg : String)
  | download (filename : String)
deriving DecidableEq, Repr

/-! ### Handlers -/

/-- `handleFilterChange` (Activities.js lines 82-85): spread the new value
into `filters` and reset `pagination.page` to 1. -/
def handleFilterChange (s : ActivitiesState) (key : FilterKey) (value : String) :
    ActivitiesState :=
  { s with
    filters := setFilterField s.filters key value
    pagination := { s.pagination with page := 1 } }

/-- The nested `data` envelope of a `GET /activities` response body; either
field may be absent. -/
structure NestedPayload where
  activities : Option (List Activity)
  pagination : Option Pagination
deriving DecidableEq, Repr

/-- A `GET /activities` response body (`response.data`): it may carry a
nested `data` envelope, flat `activities`/`pagination` fields, both, or
neither.  Absent or nullish fields are `none`; present arrays and objects
are truthy in JavaScript regardless of contents. -/
structure ActivitiesResponseBody where
  data : Option NestedPayload
  activities : Option (List Activity)
  pagination : Option Pagination
deriving DecidableEq, Repr

/-- The fallback pagination block at Activities.js lines 58-63:
`{ page: 1, limit: 50, total: 0, pages: 0 }`. -/
def fallbackPagination : Pagination :=
  { page := 1, limit := 50, total := 0, pages := 0 }

/-- `response.data.data?.activities || response.data.activities || []`
(Activities.js line 57). -/
def extractActivities (body : ActivitiesResponseBody) : List Activity :=
  ((body.data.bind NestedPayload.activities).orElse
    (fun _ => body.activities)).getD []

/-- `response.data.data?.pagination || response.data.pagination || {...}`
(Activities.js lines 58-63). -/
def extractPagination (body : ActivitiesResponseBody) : Pagination :=
  ((body.data.bind NestedPayload.pagination).orElse
    (fun _ => body.pagination)).getD fallbackPagination

/-- The state update of `fetchActivities` (Activities.js lines 46-71) on a
successful response: normalize the body and store it; the `finally` block
clears `loading`. -/
def fetchActivitiesSuccess (s : ActivitiesState) (body : ActivitiesResponseBody) :
    ActivitiesState :=
  { s with
    activities := extractActivities body
    pagination := extractPagination body
    loading := false }

/-- Outcome of the CSV export request. -/
inductive ExportOutcome where
  | success
  | failure
deriving DecidableEq, Repr

/-- `handleExport` (Activities.js lines 87-107): on success it only
triggers a client-side download named `activities-export-{days}days.csv`;
on transport failure it only logs.  No state setter is invoked on either
path. -/
def handleExport (s : ActivitiesState) (outcome : ExportOutcome) :
    ActivitiesState × List Effect :=
  match outcome with
  | ExportOutcome.success =>
    (s, [Effect.download ("activities-export-" ++ s.filters.days ++ "days.csv")])
  | ExportOutcome.failure =>
    (s, [Effect.logError "Error exporting activities:"])

/-- Outcome of the `POST /log-purge/manual` request: a response body
`{ success, deletedCount, message }`, or a transport error. -/
inductive PurgeOutcome where
  | response (success : Bool) (deletedCount : Int) (message : String)
  | transportError
deriving DecidableEq, Repr

/-- `handleLogPurge` (Activities.js lines 141-165).  `confirmed` is the
result of the `window.confirm` gate; a declined confirmation returns
before any state change.  Otherwise `purging` is set for the duration of
the request and cleared in `finally`; a successful response alerts the
deleted count and re-runs the three passive fetches, a failed response or
transport error alerts a failure notice. -/
def handleLogPurge (s : ActivitiesState) (daysOld : Int) (confirmed : Bool)
    (outcome : PurgeOutcome) : ActivitiesState × List Effect :=
  if !confirmed then
    (s, [])
  else
    match outcome with
    | PurgeOutcome.response true deletedCount _ =>
      ({ s with purging := false },
       [Effect.alertMsg
          ("Successfully purged " ++ toString deletedCount ++ " old log records."),
        Effect.fetchActivities, Effect.fetchStats, Effect.fetchLogPurgeStatus])
    | PurgeOutcome.response false _ message =>
      ({ s with purging := false },
       [Effect.alertMsg ("Failed to purge logs: " ++ message)])
    | PurgeOutcome.transportError =>
      ({ s with purging := false },
       [Effect.logError "Error purging logs:",
        Effect.alertMsg "Failed to purge logs. Please try again."])

/-- `disabled={purging}` on the 30-day purge button (Activities.js line 394). -/
def purgeButton30Disabled (s : ActivitiesState) : Bool := s.purging

/-- `disabled={purging}` on the 90-day purge button (Activities.js line 403). -/
def purgeButton90Disabled (s : ActivitiesState) : Bool := s.purging

/-! ### Sample values used by witnesses -/

/-- The component's initial state (Activities.js lines 21-37). -/
def sampleState : ActivitiesState :=
  { activities := []
    stats := ⟨[], [], []⟩
    loading := true
    filters := ⟨"", "", "", "30"⟩
    pagination := ⟨1, 50, 0, 0⟩
    logPurgeStatus := none
    purging := false }

/-- A concrete activity record. -/
def sampleActivity : Activity :=
  ⟨7, "create", "product", some 42, some "created product 42", "admin",
   DateInput.unparsable, some "10.0.0.1"⟩

/-! ### Helper lemmas: the pagination window -/

lemma mem_pageRange (T k : Int) :
    k ∈ (List.range T.toNat).map (fun i => Int.ofNat (i + 1)) ↔ 1 ≤ k ∧ k ≤ T := by
  rw [List.mem_map]
  constructor
  · rintro ⟨i, hi, rfl⟩
    rw [List.mem_range] at hi
    simp only [Int.ofNat_eq_coe]
    omega
  · rintro ⟨h1, h2⟩
    refine ⟨(k - 1).toNat, ?_, ?_⟩
    · rw [List.mem_range]
      omega
    · simp only [Int.ofNat_eq_coe]
      omega

lemma renderItem_eq_button (p T j k : Int) :
    renderItem p T j = some (PageItem.button k) ↔
      j = k ∧ (k = 1 ∨ k = T ∨ (p - 2 ≤ k ∧ k ≤ p + 2)) := by
  unfold renderItem
  split_ifs with h1 h2
  · simp only [Option.some.injEq, PageItem.button.injEq]
    constructor
    · rintro rfl
      exact ⟨rfl, h1⟩
    · rintro ⟨rfl, _⟩
      rfl
  · simp only [Option.some.injEq]
    constructor
    · intro h
      exact absurd h (by simp)
    · rintro ⟨rfl, hc⟩
      exact absurd hc h1
  · constructor
    · intro h
      exact absurd h (by simp)
    · rintro ⟨rfl, hc⟩
      exact absurd hc h1

lemma renderItem_eq_ellipsis (p T j k : Int) :
    renderItem p T j = some (PageItem.ellipsis k) ↔
      j = k ∧ ¬(k = 1 ∨ k = T ∨ (p - 2 ≤ k ∧ k ≤ p + 2)) ∧ (k = p - 3 ∨ k = p + 3) := by
  unfold renderItem
  split_ifs with h1 h2
  · simp only [Option.some.injEq]
    constructor
    · intro h
      exact absurd h (by simp)
    · rintro ⟨rfl, hn, _⟩
      exact absurd h1 hn
  · simp only [Option.some.injEq, PageItem.ellipsis.injEq]
    constructor
    · rintro rfl
      exact ⟨rfl, h1, h2⟩
    · rintro ⟨rfl, _, _⟩
      rfl
  · constructor
    · intro h
      exact absurd h (by simp)
    · rintro ⟨rfl, _, he⟩
      exact absurd he h2

lemma button_mem_paginationItems (p T k : Int) :
    PageItem.button k ∈ paginationItems p T ↔
      (1 ≤ k ∧ k ≤ T) ∧ (k = 1 ∨ k = T ∨ (p - 2 ≤ k ∧ k ≤ p + 2)) := by
  unfold paginationItems
  rw [List.mem_filterMap]
  constructor
  · rintro ⟨j, hj, hrender⟩
    obtain ⟨rfl, hc⟩ := (renderItem_eq_button p T j k).1 hrender
    exact ⟨(mem_pageRange T j).1 hj, hc⟩
  · rintro ⟨hk, hc⟩
    exact ⟨k, (mem_pageRange T k).2 hk, (renderItem_eq_button p T k k).2 ⟨rfl, hc⟩⟩

lemma ellipsis_mem_paginationItems (p T k : Int) :
    PageItem.ellipsis k ∈ paginationItems p T ↔
      (1 ≤ k ∧ k ≤ T) ∧ ¬(k = 1 ∨ k = T ∨ (p - 2 ≤ k ∧ k ≤ p + 2)) ∧
        (k = p - 3 ∨ k = p + 3) := by
  unfold paginationItems
  rw [List.mem_filterMap]
  constructor
  · rintro ⟨j, hj, hrender⟩
    obtain ⟨rfl, hn, he⟩ := (renderItem_eq_ellipsis p T j k).1 hrender
    exact ⟨(mem_pageRange T j).1 hj, hn, he⟩
  · rintro ⟨hk, hn, he⟩
    exact ⟨k, (mem_pageRange T k).2 hk, (renderItem_eq_ellipsis p T k k).2 ⟨rfl, hn, he⟩⟩

/-! ### Claims -/

/-- C1: for every total page count `T ≥ 1` and current page `p` with
`1 ≤ p ≤ T`, the pagination control renders a page button for number `k`
(ranging over the iterated page numbers `1 ≤ k ≤ T`) exactly when `k = 1`
or `k = T` or `p - 2 ≤ k ≤ p + 2`; renders an ellipsis placeholder at
`k = p - 3` and at `k = p + 3` when `k` is not rendered as a button; and
omits every other `k`. -/
theorem pagination_window_spec (p T k : Int) (hT : 1 ≤ T) (hp : 1 ≤ p ∧ p ≤ T)
    (hk : 1 ≤ k ∧ k ≤ T) :
    (PageItem.button k ∈ paginationItems p T ↔
      (k = 1 ∨ k = T ∨ (p - 2 ≤ k ∧ k ≤ p + 2))) ∧
    (PageItem.ellipsis k ∈ paginationItems p T ↔
      (¬(k = 1 ∨ k = T ∨ (p - 2 ≤ k ∧ k ≤ p + 2)) ∧ (k = p - 3 ∨ k = p + 3))) ∧
    (¬(k = 1 ∨ k = T ∨ (p - 2 ≤ k ∧ k ≤ p + 2)) → ¬(k = p - 3 ∨ k = p + 3) →
      PageItem.button k ∉ paginationItems p T ∧
      PageItem.ellipsis k ∉ paginationItems p T) := by
  refine ⟨?_, ?_, ?_⟩
  · rw [button_mem_paginationItems]
    exact and_iff_right hk
  · rw [ellipsis_mem_paginationItems]
    constructor
    · rintro ⟨_, hn, he⟩
      exact ⟨hn, he⟩
    · rintro ⟨hn, he⟩
      exact ⟨hk, hn, he⟩
  · intro hn he
    constructor
    · rw [button_mem_paginationItems]
      rintro ⟨_, hc⟩
      exact hn hc
    · rw [ellipsis_mem_paginationItems]
      rintro ⟨_, _, hc⟩
      exact he hc

/-- Witness for C1 at `p = 5`, `T = 10`, `k = 8` (an ellipsis position). -/
theorem pagination_window_spec_witness :
    (PageItem.button 8 ∈ paginationItems 5 10 ↔
      ((8 : Int) = 1 ∨ (8 : Int) = 10 ∨ ((5 : Int) - 2 ≤ 8 ∧ (8 : Int) ≤ 5 + 2))) ∧
    (PageItem.ellipsis 8 ∈ paginationItems 5 10 ↔
      (¬((8 : Int) = 1 ∨ (8 : Int) = 10 ∨ ((5 : Int) - 2 ≤ 8 ∧ (8 : Int) ≤ 5 + 2)) ∧
        ((8 : Int) = 5 - 3 ∨ (8 : Int) = 5 + 3))) ∧
    (¬((8 : Int) = 1 ∨ (8 : Int) = 10 ∨ ((5 : Int) - 2 ≤ 8 ∧ (8 : Int) ≤ 5 + 2)) →
      ¬((8 : Int) = 5 - 3 ∨ (8 : Int) = 5 + 3) →
      PageItem.button 8 ∉ paginationItems 5 10 ∧
      PageItem.ellipsis 8 ∉ paginationItems 5 10) :=
  pagination_window_spec 5 10 8 (by decide) (by decide) (by decide)

/-- C2 counterexample: at `pages = 10`, `page = 5` the control does NOT
render a button for page 2 (the claim includes 2 among the buttons); page 2
is an ellipsis position, and a second ellipsis appears at position 8, so
the claimed single ellipsis is also false. -/
theorem pagination_example_counterexample :
    PageItem.button 2 ∉ paginationItems 5 10 ∧
    PageItem.ellipsis 2 ∈ paginationItems 5 10 ∧
    PageItem.ellipsis 8 ∈ paginationItems 5 10 := by
  decide

/-- C2 amended: for `pages = 10`, `page = 5` the rendered items are, in
order, buttons 1, 3, 4, 5, 6, 7, 10 with one ellipsis immediately after 1
(at position 2) and one immediately before 10 (at position 8); for
`pages = 3`, `page = 1` the rendered buttons are exactly 1, 2, 3 with no
ellipsis. -/
theorem pagination_example_amended :
    paginationItems 5 10 =
      [PageItem.button 1, PageItem.ellipsis 2, PageItem.button 3, PageItem.button 4,
       PageItem.button 5, PageItem.button 6, PageItem.button 7, PageItem.ellipsis 8,
       PageItem.button 10] ∧
    paginationItems 1 3 = [PageItem.button 1, PageItem.button 2, PageItem.button 3] := by
  decide

/-- C3: every absent or unparsable input makes all five DateFormatter
functions return the empty string (for `formatRelativeTime`, at every
wall-clock instant `now`). -/
theorem dateFormatter_empty_on_bad_input (inp : DateInput) (now : Int)
    (h : inp = DateInput.absent ∨ inp = DateInput.unparsable) :
    formatDate inp = "" ∧ formatDateTime inp = "" ∧ formatDateTimeFull inp = "" ∧
    formatRelativeTime now inp = "" ∧ formatISO inp = "" := by
  rcases h with rfl | rfl <;> exact ⟨rfl, rfl, rfl, rfl, rfl⟩

/-- Witness for C3 at the unparsable input. -/
theorem dateFormatter_empty_on_bad_input_witness :
    (DateInput.unparsable = DateInput.absent ∨
      DateInput.unparsable = DateInput.unparsable) ∧
    (formatDate DateInput.unparsable = "" ∧
     formatDateTime DateInput.unparsable = "" ∧
     formatDateTimeFull DateInput.unparsable = "" ∧
     formatRelativeTime 0 DateInput.unparsable = "" ∧
     formatISO DateInput.unparsable = "") :=
  ⟨Or.inr rfl, dateFormatter_empty_on_bad_input DateInput.unparsable 0 (Or.inr rfl)⟩

/-- C4: for a valid input date, `formatRelativeTime` returns "Just now" at
exactly 59 elapsed seconds, "1 minute ago" at exactly 60, "1 hour ago" at
exactly 3600, and "1 day ago" at exactly 86400. -/
theorem formatRelativeTime_boundaries (d : DateRec) (now : Int) :
    (now - d.ms = 59 * 1000 →
      formatRelativeTime now (DateInput.valid d) = "Just now") ∧
    (now - d.ms = 60 * 1000 →
      formatRelativeTime now (DateInput.valid d) = "1 minute ago") ∧
    (now - d.ms = 3600 * 1000 →
      formatRelativeTime now (DateInput.valid d) = "1 hour ago") ∧
    (now - d.ms = 86400 * 1000 →
      formatRelativeTime now (DateInput.valid d) = "1 day ago") := by
  refine ⟨fun h => ?_, fun h => ?_, fun h => ?_, fun h => ?_⟩ <;>
    · simp only [formatRelativeTime, isFalsy, parseDate]
      rw [h]
      decide

/-- A concrete parsed date used by witnesses (2024-03-05T00:00:00Z). -/
def sampleDate : DateRec :=
  { day := 5, month0 := 2, year := 2024, hours := 0, minutes := 0, seconds := 0,
    ms := 1709596800000, isoString := "2024-03-05T00:00:00.000Z" }

/-- Witness for C4: all four boundaries instantiated at `sampleDate`. -/
theorem formatRelativeTime_boundaries_witness :
    (sampleDate.ms + 59000 - sampleDate.ms = 59 * 1000 ∧
      formatRelativeTime (sampleDate.ms + 59000) (DateInput.valid sampleDate) =
        "Just now") ∧
    (sampleDate.ms + 60000 - sampleDate.ms = 60 * 1000 ∧
      formatRelativeTime (sampleDate.ms + 60000) (DateInput.valid sampleDate) =
        "1 minute ago") ∧
    (sampleDate.ms + 3600000 - sampleDate.ms = 3600 * 1000 ∧
      formatRelativeTime (sampleDate.ms + 3600000) (DateInput.valid sampleDate) =
        "1 hour ago") ∧
    (sampleDate.ms + 86400000 - sampleDate.ms = 86400 * 1000 ∧
      formatRelativeTime (sampleDate.ms + 86400000) (DateInput.valid sampleDate) =
        "1 day ago") :=
  ⟨⟨by decide,
    (formatRelativeTime_boundaries sampleDate (sampleDate.ms + 59000)).1 (by decide)⟩,
   ⟨by decide,
    (formatRelativeTime_boundaries sampleDate (sampleDate.ms + 60000)).2.1 (by decide)⟩,
   ⟨by decide,
    (formatRelativeTime_boundaries sampleDate (sampleDate.ms + 3600000)).2.2.1
      (by decide)⟩,
   ⟨by decide,
    (formatRelativeTime_boundaries sampleDate (sampleDate.ms + 86400000)).2.2.2
      (by decide)⟩⟩

/-- C5: invoking the filter-change handler with any key and any new value
sets `pagination.page` to 1 (from every prior page value) and leaves
`limit`, `total` and `pages` unchanged. -/
theorem filterChange_resets_page (s : ActivitiesState) (key : FilterKey)
    (value : String) :
    (handleFilterChange s key value).pagination.page = 1 ∧
    (handleFilterChange s key value).pagination.limit = s.pagination.limit ∧
    (handleFilterChange s key value).pagination.total = s.pagination.total ∧
    (handleFilterChange s key value).pagination.pages = s.pagination.pages :=
  ⟨rfl, rfl, rfl, rfl⟩

/-- C6 counterexample: with the development flag unset and the override
variable set (to the empty string), `getBaseUrl` does not return the
override — JavaScript `||` treats the empty string as falsy and falls
through to the production domain literal. -/
theorem getBaseUrl_claim_counterexample :
    (Env.mk "production" (some "")).reactAppBaseUrl = some "" ∧
    getBaseUrl (Env.mk "production" (some "")) ≠ "" ∧
    getBaseUrl (Env.mk "production" (some "")) = "https://oglasheabutter.com" := by
  refine ⟨rfl, ?_, rfl⟩
  decide

/-- C6 amended: with the development flag set, `getBaseUrl` returns the
fixed local development origin for every value of the override variable;
with the flag unset it returns the override when present and non-empty,
and the fixed production domain when the override is unset or empty. -/
theorem getBaseUrl_spec (env : Env) :
    (env.nodeEnv = "development" → getBaseUrl env = "http://localhost:3000") ∧
    (env.nodeEnv ≠ "development" →
      (∀ u, env.reactAppBaseUrl = some u → u ≠ "" → getBaseUrl env = u) ∧
      ((env.reactAppBaseUrl = none ∨ env.reactAppBaseUrl = some "") →
        getBaseUrl env = "https://oglasheabutter.com")) := by
  constructor
  · intro h
    simp [getBaseUrl, h]
  · intro h
    constructor
    · intro u hu hne
      simp [getBaseUrl, h, hu, hne]
    · rintro (hu | hu) <;> simp [getBaseUrl, h, hu]

/-- Witness for C6 (amended) at a production environment with a non-empty
override and at a development environment carrying an override. -/
theorem getBaseUrl_spec_witness :
    ((Env.mk "development" (some "https://cdn.example.org")).nodeEnv = "development" ∧
      getBaseUrl (Env.mk "development" (some "https://cdn.example.org")) =
        "http://localhost:3000") ∧
    ((Env.mk "production" (some "https://cdn.example.org")).nodeEnv ≠ "development" ∧
      (Env.mk "production" (some "https://cdn.example.org")).reactAppBaseUrl =
        some "https://cdn.example.org" ∧
      "https://cdn.example.org" ≠ "" ∧
      getBaseUrl (Env.mk "production" (some "https://cdn.example.org")) =
        "https://cdn.example.org") :=
  ⟨⟨rfl, (getBaseUrl_spec (Env.mk "development" (some "https://cdn.example.org"))).1 rfl⟩,
   ⟨by decide, rfl, by decide,
    ((getBaseUrl_spec (Env.mk "production" (some "https://cdn.example.org"))).2
        (by decide)).1 "https://cdn.example.org" rfl (by decide)⟩⟩

/-- C7: the activities fetch normalizes both accepted envelope shapes
(nested under `data`, or flat) to the same `{activities, pagination}`
state, and a body matching neither shape yields the empty list and the
fallback pagination block `{page 1, limit 50, total 0, pages 0}`. -/
theorem fetchActivities_normalization (s : ActivitiesState)
    (acts : List Activity) (pag : Pagination) (body : ActivitiesResponseBody)
    (h1 : body.data.bind NestedPayload.activities = none)
    (h2 : body.data.bind NestedPayload.pagination = none)
    (h3 : body.activities = none) (h4 : body.pagination = none) :
    ((fetchActivitiesSuccess s ⟨some ⟨some acts, some pag⟩, none, none⟩).activities =
        acts ∧
     (fetchActivitiesSuccess s ⟨some ⟨some acts, some pag⟩, none, none⟩).pagination =
        pag) ∧
    ((fetchActivitiesSuccess s ⟨none, some acts, some pag⟩).activities = acts ∧
     (fetchActivitiesSuccess s ⟨none, some acts, some pag⟩).pagination = pag) ∧
    ((fetchActivitiesSuccess s body).activities = [] ∧
     (fetchActivitiesSuccess s body).pagination = fallbackPagination) := by
  refine ⟨⟨rfl, rfl⟩, ⟨rfl, rfl⟩, ?_, ?_⟩
  · show extractActivities body = []
    unfold extractActivities
    rw [h1, h3]
    rfl
  · show extractPagination body = fallbackPagination
    unfold extractPagination
    rw [h2, h4]
    rfl

/-- Witness for C7 at a body carrying a nested `data` envelope with both
fields missing and no flat fields. -/
theorem fetchActivities_normalization_witness :
    (ActivitiesResponseBody.mk (some ⟨none, none⟩) none none).data.bind
        NestedPayload.activities = none ∧
    (ActivitiesResponseBody.mk (some ⟨none, none⟩) none none).data.bind
        NestedPayload.pagination = none ∧
    (ActivitiesResponseBody.mk (some ⟨none, none⟩) none none).activities = none ∧
    (ActivitiesResponseBody.mk (some ⟨none, none⟩) none none).pagination = none ∧
    ((fetchActivitiesSuccess sampleState
        ⟨some ⟨some [sampleActivity], some ⟨2, 25, 60, 3⟩⟩, none, none⟩).activities =
        [sampleActivity] ∧
     (fetchActivitiesSuccess sampleState
        ⟨some ⟨some [sampleActivity], some ⟨2, 25, 60, 3⟩⟩, none, none⟩).pagination =
        ⟨2, 25, 60, 3⟩) ∧
    ((fetchActivitiesSuccess sampleState
        ⟨none, some [sampleActivity], some ⟨2, 25, 60, 3⟩⟩).activities =
        [sampleActivity] ∧
     (fetchActivitiesSuccess sampleState
        ⟨none, some [sampleActivity], some ⟨2, 25, 60, 3⟩⟩).pagination =
        ⟨2, 25, 60, 3⟩) ∧
    ((fetchActivitiesSuccess sampleState
        (ActivitiesResponseBody.mk (some ⟨none, none⟩) none none)).activities = [] ∧
     (fetchActivitiesSuccess sampleState
        (ActivitiesResponseBody.mk (some ⟨none, none⟩) none none)).pagination =
        fallbackPagination) :=
  ⟨rfl, rfl, rfl, rfl,
   fetchActivities_normalization sampleState [sampleActivity] ⟨2, 25, 60, 3⟩
     (ActivitiesResponseBody.mk (some ⟨none, none⟩) none none) rfl rfl rfl rfl⟩

/-- C8: a transport failure of the CSV export leaves `activities`, `stats`
and `pagination` exactly as they were before the call. -/
theorem export_failure_frame (s : ActivitiesState) :
    (handleExport s ExportOutcome.failure).1.activities = s.activities ∧
    (handleExport s ExportOutcome.failure).1.stats = s.stats ∧
    (handleExport s ExportOutcome.failure).1.pagination = s.pagination :=
  ⟨rfl, rfl, rfl⟩

/-- C9: while the `purging` flag is true both purge buttons are disabled,
and a confirmed purge whose response indicates success re-issues each of
the three passive fetches (activities, stats, purge-status) exactly once. -/
theorem purge_disabled_and_refetch_once (s : ActivitiesState)
    (daysOld deletedCount : Int) (message : String) :
    (s.purging = true →
      purgeButton30Disabled s = true ∧ purgeButton90Disabled s = true) ∧
    ((handleLogPurge s daysOld true
        (PurgeOutcome.response true deletedCount message)).2.count
        Effect.fetchActivities = 1 ∧
     (handleLogPurge s daysOld true
        (PurgeOutcome.response true deletedCount message)).2.count
        Effect.fetchStats = 1 ∧
     (handleLogPurge s daysOld true
        (PurgeOutcome.response true deletedCount message)).2.count
        Effect.fetchLogPurgeStatus = 1) :=
  ⟨fun h => ⟨h, h⟩, rfl, rfl, rfl⟩

/-- Witness for C9 at the initial state with `purging` set, purging 30-day
records with 12 deletions reported. -/
theorem purge_disabled_and_refetch_once_witness :
    ({ sampleState with purging := true } : ActivitiesState).purging = true ∧
    (purgeButton30Disabled { sampleState with purging := true } = true ∧
     purgeButton90Disabled { sampleState with purging := true } = true) ∧
    ((handleLogPurge { sampleState with purging := true } 30 true
        (PurgeOutcome.response true 12 "")).2.count Effect.fetchActivities = 1 ∧
     (handleLogPurge { sampleState with purging := true } 30 true
        (PurgeOutcome.response true 12 "")).2.count Effect.fetchStats = 1 ∧
     (handleLogPurge { sampleState with purging := true } 30 true
        (PurgeOutcome.response true 12 "")).2.count Effect.fetchLogPurgeStatus = 1) :=
  ⟨rfl,
   (purge_disabled_and_refetch_once { sampleState with purging := true } 30 12 "").1 rfl,
   (purge_disabled_and_refetch_once { sampleState with purging := true } 30 12 "").2⟩

/-- C10: every confirmed invocation of `handleLogPurge` terminates with
`purging = false` on all three outcomes (success, application-level
failure, transport error), and a declined confirmation changes nothing and
issues no effect. -/
theorem purge_always_clears_flag (s : ActivitiesState) (daysOld : Int)
    (outcome : PurgeOutcome) :
    (handleLogPurge s daysOld true outcome).1.purging = false ∧
    handleLogPurge s daysOld false outcome = (s, []) := by
  refine ⟨?_, rfl⟩
  cases outcome with
  | response success deletedCount message => cases success <;> rfl
  | transportError => rfl
